import Mathlib

/-!
Shallow embedding of the wire-payload decoding layer of the MonoTanks
client library (modules `hackathon_bot/payloads.py` and
`hackathon_bot/protocols.py`).

JSON values handed to the decoders by the (external) JSON parser are
modelled by `JsonVal`; a parsed JSON object (a Python `dict`) is an
association list with distinct keys, and the decoders observe it only
through key lookup, so the list order is irrelevant.  Python performs no
runtime type enforcement on dataclass fields, hence record fields hold
`JsonVal` and a missing optional keyword argument binds the default
`None`, modelled as `JsonVal.null`.  Python exceptions raised during
decoding (`TypeError`, `KeyError`, `ValueError`) are modelled by the
`Except PyErr` result channel.
-/

/-- A JSON value as produced by the JSON parser. -/
inductive JsonVal where
  | null : JsonVal
  | bool (b : Bool) : JsonVal
  | int (n : Int) : JsonVal
  | str (s : String) : JsonVal
  | arr (elems : List JsonVal) : JsonVal
  | obj (fields : List (String × JsonVal)) : JsonVal

mutual

/-- Python value equality (`==`) on JSON values. -/
def JsonVal.beq : JsonVal → JsonVal → Bool
  | .null, .null => true
  | .bool a, .bool b => a == b
  | .int a, .int b => a == b
  | .str a, .str b => a == b
  | .arr a, .arr b => JsonVal.beqList a b
  | .obj a, .obj b => JsonVal.beqObj a b
  | _, _ => false

/-- Elementwise Python equality on JSON arrays. -/
def JsonVal.beqList : List JsonVal → List JsonVal → Bool
  | [], [] => true
  | x :: xs, y :: ys => JsonVal.beq x y && JsonVal.beqList xs ys
  | _, _ => false

/-- Entrywise Python equality on JSON objects. -/
def JsonVal.beqObj : List (String × JsonVal) → List (String × JsonVal) → Bool
  | [], [] => true
  | (k, v) :: xs, (l, w) :: ys => k == l && JsonVal.beq v w && JsonVal.beqObj xs ys
  | _, _ => false

end

instance : BEq JsonVal := ⟨JsonVal.beq⟩

/-- A parsed JSON object / Python dict: keys with JSON values. -/
abbrev JsonObj := List (String × JsonVal)

/-- The Python exceptions the decoding layer can raise. -/
inductive PyErr where
  | typeError (msg : String) : PyErr
  | keyError (key : String) : PyErr
  | valueError (msg : String) : PyErr
  | frozenInstanceError (cls : String) : PyErr
deriving DecidableEq

/-- Dict lookup (`d.get(k)` returning `None` on a missing key). -/
def jget (j : JsonObj) (k : String) : Option JsonVal :=
  (j.find? (fun p => p.1 == k)).map (·.2)

/-- Dict key removal, the effect of `d.pop(k)` on the dict. -/
def jerase (j : JsonObj) (k : String) : JsonObj :=
  j.filter (fun p => p.1 != k)

/-- Python `d[k]`: the value, or a `KeyError` when the key is missing. -/
def dictIndex (j : JsonObj) (k : String) : Except PyErr JsonVal :=
  match jget j k with
  | some v => .ok v
  | none => .error (.keyError k)

/-- A value used where a dict is required (`cls(**v)`, `v[k]`):
Python raises a `TypeError` when it is not a mapping. -/
def asObj (v : JsonVal) : Except PyErr JsonObj :=
  match v with
  | .obj fields => .ok fields
  | _ => .error (.typeError "argument must be a mapping")

/-- A value iterated over (`tuple(... for x in v)`): a JSON array yields
its elements, a string yields its one-character substrings, a dict
yields its keys (Python iterability), and any other value raises a
`TypeError`. -/
def asArr (v : JsonVal) : Except PyErr (List JsonVal) :=
  match v with
  | .arr elems => .ok elems
  | .str s => .ok (s.data.map (fun c => .str (String.singleton c)))
  | .obj fields => .ok (fields.map (fun p => .str p.1))
  | _ => .error (.typeError "value is not iterable")

/-- A value used where a string is required (`humps.pascalize(v)`):
Python raises when it is not a `str`. -/
def asStr (v : JsonVal) : Except PyErr String :=
  match v with
  | .str s => .ok s
  | _ => .error (.typeError "value is not a string")

/-- Keyword-argument binding step 1 of `cls(**kwargs)`: a key outside
the field list of the dataclass raises
`TypeError: unexpected keyword argument`. -/
def checkNoExtra (j : JsonObj) (allowed : List String) : Except PyErr Unit :=
  match j.find? (fun p => !(allowed.contains p.1)) with
  | some p => .error (.typeError ("unexpected keyword argument " ++ p.1))
  | none => .ok ()

/-- Keyword-argument binding of a field with no default: a missing key
raises `TypeError: missing required argument`. -/
def reqField (j : JsonObj) (k : String) : Except PyErr JsonVal :=
  match jget j k with
  | some v => .ok v
  | none => .error (.typeError ("missing required argument " ++ k))

/-- Keyword-argument binding of a field whose default is `None`
(and likewise `status.get(k, None)` in the zone decoder): a missing key
binds `None`. -/
def optField (j : JsonObj) (k : String) : JsonVal :=
  (jget j k).getD .null

/-- Raw player record (dataclass `RawPlayer`): required id, nickname and
color; optional score, ping and ticks_to_regen defaulting to `None`. -/
structure RawPlayer where
  id : JsonVal
  nickname : JsonVal
  color : JsonVal
  score : JsonVal
  ping : JsonVal
  ticks_to_regen : JsonVal

/-- The dataclass field list of `RawPlayer`. -/
def RawPlayer.fieldNames : List String :=
  ["id", "nickname", "color", "score", "ping", "ticks_to_regen"]

/-- `RawPlayer.from_json`: `cls(**json_data)`. -/
def RawPlayer.from_json (j : JsonObj) : Except PyErr RawPlayer := do
  let _ ← checkNoExtra j RawPlayer.fieldNames
  let i ← reqField j "id"
  let n ← reqField j "nickname"
  let c ← reqField j "color"
  pure ⟨i, n, c, optField j "score", optField j "ping", optField j "ticks_to_regen"⟩

/-- Raw turret record (dataclass `RawTurret`): required direction;
optional bullet_count and ticks_to_regen_bullet defaulting to `None`. -/
structure RawTurret where
  direction : JsonVal
  bullet_count : JsonVal
  ticks_to_regen_bullet : JsonVal

/-- The dataclass field list of `RawTurret`. -/
def RawTurret.fieldNames : List String :=
  ["direction", "bullet_count", "ticks_to_regen_bullet"]

/-- `RawTurret.from_json`: `cls(**json_data)`. -/
def RawTurret.from_json (j : JsonObj) : Except PyErr RawTurret := do
  let _ ← checkNoExtra j RawTurret.fieldNames
  let d ← reqField j "direction"
  pure ⟨d, optField j "bullet_count", optField j "ticks_to_regen_bullet"⟩

/-- Raw wall record (dataclass `RawWall`, a `RawTileEntity` subclass
with no fields). -/
structure RawWall where

/-- `RawWall.from_json`: `cls(**json_data)` on an empty field list. -/
def RawWall.from_json (j : JsonObj) : Except PyErr RawWall := do
  let _ ← checkNoExtra j []
  pure ⟨⟩

/-- Raw bullet record (dataclass `RawBullet`, a `RawTileEntity`
subclass): required id; optional speed and direction. -/
structure RawBullet where
  id : JsonVal
  speed : JsonVal
  direction : JsonVal

/-- The dataclass field list of `RawBullet`. -/
def RawBullet.fieldNames : List String := ["id", "speed", "direction"]

/-- `RawBullet.from_json`: `cls(**json_data)`. -/
def RawBullet.from_json (j : JsonObj) : Except PyErr RawBullet := do
  let _ ← checkNoExtra j RawBullet.fieldNames
  let i ← reqField j "id"
  pure ⟨i, optField j "speed", optField j "direction"⟩

/-- Raw tank record (dataclass `RawTank`, a `RawTileEntity` subclass):
required owner_id, direction and turret (decoded via `RawTurret`);
optional health. -/
structure RawTank where
  owner_id : JsonVal
  direction : JsonVal
  turret : RawTurret
  health : JsonVal

/-- The dataclass field list of `RawTank`. -/
def RawTank.fieldNames : List String :=
  ["owner_id", "direction", "turret", "health"]

/-- `RawTank.from_json`: replaces `json_data["turret"]` with the decoded
`RawTurret` (a `KeyError` when the key is absent, and the turret value
must be a mapping for the nested `cls(**...)`), then `cls(**json_data)`. -/
def RawTank.from_json (j : JsonObj) : Except PyErr RawTank := do
  let tv ← dictIndex j "turret"
  let tobj ← asObj tv
  let turret ← RawTurret.from_json tobj
  let _ ← checkNoExtra j RawTank.fieldNames
  let o ← reqField j "owner_id"
  let d ← reqField j "direction"
  pure ⟨o, d, turret, optField j "health"⟩

/-- The closed family of concrete `RawTileEntity` values a tile occupant
can decode to. -/
inductive RawTileEntity where
  | wall (w : RawWall) : RawTileEntity
  | bullet (b : RawBullet) : RawTileEntity
  | tank (t : RawTank) : RawTileEntity

/-- Character-level worker for `pascalize`: the flag records whether
the next character starts a word; underscores separate words and are
dropped. -/
def pascalizeAux : Bool → List Char → List Char
  | _, [] => []
  | _, '_' :: rest => pascalizeAux true rest
  | true, c :: rest => c.toUpper :: pascalizeAux false rest
  | false, c :: rest => c :: pascalizeAux false rest

/-- Model of `humps.pascalize` restricted to snake_case tags (lowercase
words joined by single underscores), the tag space of the wire
protocol: each underscore-separated word is capitalized and the words
concatenated. -/
def pascalize (s : String) : String :=
  ⟨pascalizeAux true s.data⟩

/-- The module-global lookup performed by `RawTileObject.from_json`:
`globals().get("Raw" + pascalize(tag))` followed by
`issubclass(cls, RawTileEntity)`.  The module globals of `payloads.py`
starting with `Raw` are the nine Raw classes; of these, exactly
`RawTileEntity` itself, `RawWall`, `RawBullet` and `RawTank` pass the
subclass test, and every other name (a non-subclass global such as
`RawPlayer` or `RawTurret`, or an absent name such as `RawDrone`)
produces the identical `ValueError`, so the registry maps exactly the
four subclass names to the bound `from_json` of that class.  The
`from_json` of the abstract base `RawTileEntity` has only a docstring
body, so calling it on the class returns `None` for every argument;
the concrete classes unpack their payload as keyword arguments, which
requires it to be a mapping. -/
def tileEntityRegistry (name : String) :
    Option (JsonVal → Except PyErr (Option RawTileEntity)) :=
  if name = "RawTileEntity" then
    some (fun _ => .ok none)
  else if name = "RawWall" then
    some (fun v => do
      let o ← asObj v
      let w ← RawWall.from_json o
      pure (some (.wall w)))
  else if name = "RawBullet" then
    some (fun v => do
      let o ← asObj v
      let b ← RawBullet.from_json o
      pure (some (.bullet b)))
  else if name = "RawTank" then
    some (fun v => do
      let o ← asObj v
      let t ← RawTank.from_json o
      pure (some (.tank t)))
  else
    none

/-- A decoded tile occupant: the popped tag string and the entity the
resolved class decoded (`None` exactly when the resolved class was the
abstract base). -/
structure RawTileObject where
  type : String
  entity : Option RawTileEntity

/-- `RawTileObject.from_json`: pops the `type` tag (a `KeyError` when
absent, and `humps.pascalize` requires a string), resolves
`Raw{pascalize(tag)}` among the module globals, rejects a missing or
non-`RawTileEntity` resolution with a `ValueError` naming the class,
and applies the resolved `from_json` to `json_data.get("payload", {})`. -/
def RawTileObject.from_json (j : JsonObj) : Except PyErr RawTileObject := do
  let tv ← dictIndex j "type"
  let tag ← asStr tv
  let rest := jerase j "type"
  let clsName := "Raw" ++ pascalize tag
  match tileEntityRegistry clsName with
  | none => .error (.valueError ("Unknown tile object class: " ++ clsName))
  | some dec => do
      let entity ← dec ((jget rest "payload").getD (.obj []))
      pure ⟨tag, entity⟩

/-- Raw zone record (dataclass `RawZone`): required rectangle fields and
index; the `status` field and the four status-specific fields are
filled in by `from_json` from the `status` sub-object. -/
structure RawZone where
  x : JsonVal
  y : JsonVal
  width : JsonVal
  height : JsonVal
  index : JsonVal
  status : JsonVal
  player_id : JsonVal
  captured_by_id : JsonVal
  retaken_by_id : JsonVal
  remaining_ticks : JsonVal

/-- The dataclass field list of `RawZone`. -/
def RawZone.fieldNames : List String :=
  ["x", "y", "width", "height", "index", "status",
   "player_id", "captured_by_id", "retaken_by_id", "remaining_ticks"]

/-- `RawZone.from_json`: pops the `status` sub-object (defaulting to an
empty dict, which then fails on `status["type"]`), stores
`status["type"]` as the `status` field, copies each of `player_id`,
`captured_by_id`, `retaken_by_id` and `remaining_ticks` from the status
sub-object via `status.get(..., None)` — overwriting any top-level keys
of those names — and finally binds `cls(**json_data)`. -/
def RawZone.from_json (j : JsonObj) : Except PyErr RawZone := do
  let st ← asObj ((jget j "status").getD (.obj []))
  let tv ← dictIndex st "type"
  let rest := jerase j "status"
  let _ ← checkNoExtra rest RawZone.fieldNames
  let xv ← reqField rest "x"
  let yv ← reqField rest "y"
  let wv ← reqField rest "width"
  let hv ← reqField rest "height"
  let iv ← reqField rest "index"
  pure ⟨xv, yv, wv, hv, iv, tv,
    optField st "player_id", optField st "captured_by_id",
    optField st "retaken_by_id", optField st "remaining_ticks"⟩

/-- Raw map record (dataclass `RawMap`): the three-level tile grid, the
zone list and the visibility rows. -/
structure RawMap where
  tiles : List (List (List RawTileObject))
  zones : List RawZone
  visibility : List JsonVal

/-- The dataclass field list of `RawMap`. -/
def RawMap.fieldNames : List String := ["tiles", "zones", "visibility"]

/-- `RawMap.from_json`: rebuilds `tiles` as a triple-nested tuple of
decoded `RawTileObject`s (each occupant must be a mapping), `zones` as a
tuple of decoded `RawZone`s, `visibility` as a tuple of the iterated
rows, then binds `cls(**json_data)`; a failure anywhere aborts the map. -/
def RawMap.from_json (j : JsonObj) : Except PyErr RawMap := do
  let tv ← dictIndex j "tiles"
  let rows ← asArr tv
  let tiles ← rows.mapM (fun row => do
    let tilesRow ← asArr row
    tilesRow.mapM (fun tile => do
      let objs ← asArr tile
      objs.mapM (fun o => do
        let ob ← asObj o
        RawTileObject.from_json ob)))
  let zv ← dictIndex j "zones"
  let zarr ← asArr zv
  let zones ← zarr.mapM (fun z => do
    let zo ← asObj z
    RawZone.from_json zo)
  let vv ← dictIndex j "visibility"
  let vis ← asArr vv
  let _ ← checkNoExtra j RawMap.fieldNames
  pure ⟨tiles, zones, vis⟩

/-- GAME_STATE payload record (dataclass `GameStatePayload`): snapshot
id, tick, decoded player list and decoded map. -/
structure GameStatePayload where
  id : JsonVal
  tick : JsonVal
  players : List RawPlayer
  map : RawMap

/-- The dataclass field list of `GameStatePayload`. -/
def GameStatePayload.fieldNames : List String :=
  ["id", "tick", "players", "map"]

/-- `GameStatePayload.from_json`: decodes each player via
`RawPlayer.from_json`, decodes the map via `RawMap.from_json`, then
binds `cls(**json_data)`. -/
def GameStatePayload.from_json (j : JsonObj) : Except PyErr GameStatePayload := do
  let pv ← dictIndex j "players"
  let parr ← asArr pv
  let players ← parr.mapM (fun p => do
    let po ← asObj p
    RawPlayer.from_json po)
  let mv ← dictIndex j "map"
  let mo ← asObj mv
  let mp ← RawMap.from_json mo
  let _ ← checkNoExtra j GameStatePayload.fieldNames
  let i ← reqField j "id"
  let t ← reqField j "tick"
  pure ⟨i, t, players, mp⟩

/-- TANK_ROTATION response payload (dataclass `TankRotationPayload`):
the originating game-state id and the two independently optional
rotation fields. -/
structure TankRotationPayload where
  game_state_id : String
  tank_rotation : Option Int
  turret_rotation : Option Int
deriving DecidableEq

/-- The error the spec assigns to a contradictory outgoing request. -/
inductive EncodeErr where
  | invalidCombination : EncodeErr
deriving DecidableEq

/-- Construction of an outgoing rotation envelope.  The generated
constructor of the frozen dataclass `TankRotationPayload` only binds its
three fields: the source performs no validation of the combination of
the two optional rotations, so the error channel is never used and
every request — including one with both rotations absent — yields a
payload. -/
def encodeRotation (gid : String) (tr tur : Option Int) :
    Except EncodeErr TankRotationPayload :=
  .ok ⟨gid, tr, tur⟩

/-- The members a `runtime_checkable` `isinstance` check against the
`PlayerTank` protocol requires on an object: the synthetic marker
attribute and the three declared properties
(`protocols.py`, class `PlayerTank`). -/
def PlayerTank.members : List String :=
  ["__instancecheck_tank__", "owner_id", "direction", "turret"]

/-- The members a `runtime_checkable` `isinstance` check against the
`AgentTank` protocol requires on an object: both synthetic marker
attributes and the four declared properties
(`protocols.py`, class `AgentTank`). -/
def AgentTank.members : List String :=
  ["__instancecheck_tank__", "__instancecheck_agenttank__",
   "owner_id", "direction", "turret", "health"]

/-- `isinstance(obj, P)` for a `runtime_checkable` protocol `P`: every
member of the protocol is present among the attributes of the object. -/
def satisfiesProtocol (members : List String) (attrs : List String) : Bool :=
  members.all (fun m => attrs.contains m)

/-- The `PlayerTank` instance check on an object given by its attribute
set. -/
def isPlayerTankInstance (attrs : List String) : Bool :=
  satisfiesProtocol PlayerTank.members attrs

/-- The `AgentTank` instance check on an object given by its attribute
set. -/
def isAgentTankInstance (attrs : List String) : Bool :=
  satisfiesProtocol AgentTank.members attrs

/-- A dataclass declaration of `payloads.py`: its name and the flags of
its `@dataclass(...)` decorator. -/
structure DataclassDecl where
  name : String
  slots : Bool
  frozen : Bool
deriving DecidableEq

/-- Every dataclass declared in `payloads.py`, with its decorator
flags transcribed from the source: each is `slots=True, frozen=True`. -/
def payloadsDataclasses : List DataclassDecl :=
  [⟨"ServerSettings", true, true⟩,
   ⟨"RawPlayer", true, true⟩,
   ⟨"RawMap", true, true⟩,
   ⟨"RawTileObject", true, true⟩,
   ⟨"RawTileEntity", true, true⟩,
   ⟨"RawWall", true, true⟩,
   ⟨"RawBullet", true, true⟩,
   ⟨"RawTank", true, true⟩,
   ⟨"RawTurret", true, true⟩,
   ⟨"RawZone", true, true⟩,
   ⟨"ConnectionRejectedPayload", true, true⟩,
   ⟨"LobbyDataPayload", true, true⟩,
   ⟨"GameStatePayload", true, true⟩,
   ⟨"GameEndPayload", true, true⟩,
   ⟨"ResponseActionPayload", true, true⟩,
   ⟨"TankMovementPayload", true, true⟩,
   ⟨"TankRotationPayload", true, true⟩,
   ⟨"TankShootPayload", true, true⟩,
   ⟨"ResponsePassPayload", true, true⟩]

/-- Assignment to a field of a constructed instance of a dataclass: for
a `frozen=True` dataclass the generated `__setattr__` raises
`FrozenInstanceError`; only a non-frozen dataclass would accept it. -/
def setattrOnInstance (d : DataclassDecl) (_attr : String) : Except PyErr Unit :=
  if d.frozen then .error (.frozenInstanceError d.name) else .ok ()

/-- The tank held by a decoded tile occupant, when it is one. -/
def RawTileObject.tank? (o : RawTileObject) : Option RawTank :=
  match o.entity with
  | some (.tank t) => some t
  | _ => none

/-- Every tank occupant found while walking the tile grid of a map. -/
def RawMap.tanks (m : RawMap) : List RawTank :=
  (m.tiles.flatten.flatten).filterMap RawTileObject.tank?

/-- The error the spec assigns to an unresolvable cross-reference. -/
inductive BuildErr where
  | danglingReference : BuildErr
deriving DecidableEq

/-- Modelled from the spec: the Domain Model Builder (spec section 4.3)
is not among the source files (its result types appear only as protocol
declarations in `protocols.py`); per the spec, every `Tank.owner_id`
found while walking the map must match some player id in the same
snapshot player list, and otherwise the snapshot fails with
`DanglingReference`. -/
def buildCheckReferences (gs : GameStatePayload) : Except BuildErr Unit :=
  if (gs.map.tanks).all
      (fun t => (gs.players.map (fun p => p.id)).contains t.owner_id) then
    .ok ()
  else
    .error .danglingReference

theorem jget_jerase_ne (j : JsonObj) (k k' : String) (h : (k' == k) = false) :
    jget (jerase j k') k = jget j k := by
  induction j with
  | nil => rfl
  | cons p rest ih =>
    cases hpk' : (p.1 == k') with
    | true =>
      have hpk : (p.1 == k) = false := by
        have hp : p.1 = k' := by simpa using hpk'
        rw [hp]
        exact h
      simp only [jerase, jget, List.filter_cons, List.find?_cons, hpk', hpk,
        bne, Bool.not_true, if_false, if_neg, Bool.false_eq_true,
        not_false_eq_true, ite_false] at ih ⊢
      exact ih
    | false =>
      cases hpk : (p.1 == k) with
      | true =>
        have hp' : p.1 ≠ k' := by simpa using hpk'
        simp [jerase, jget, List.filter_cons, List.find?_cons, hpk', hpk, hp']
      | false =>
        simp only [jerase, jget, List.filter_cons, List.find?_cons, hpk', hpk,
          bne, Bool.not_false, if_true, Bool.false_eq_true, not_false_eq_true,
          ite_true, ite_false] at ih ⊢
        simpa [jget, List.find?_cons, hpk] using ih

/-- C1 counterexample: a `being_captured` zone whose wire status
sub-object carries a `retaken_by_id` entry decodes to a record whose
retaken_by_id field holds that entry (`"p9"`, not `None`), because
`RawZone.from_json` copies all four status-specific fields from the
status sub-object regardless of the status tag. -/
theorem c1_zone_status_counterexample :
    RawZone.from_json
      [("x", .int 0), ("y", .int 0), ("width", .int 1), ("height", .int 1),
       ("index", .int 0),
       ("status", .obj [("type", .str "being_captured"), ("player_id", .str "p1"),
                        ("remaining_ticks", .int 5), ("retaken_by_id", .str "p9")])] =
      .ok ⟨.int 0, .int 0, .int 1, .int 1, .int 0, .str "being_captured",
           .str "p1", .null, .str "p9", .int 5⟩
    ∧ JsonVal.str "p9" ≠ JsonVal.null := by
  exact ⟨rfl, by simp⟩

/-- C1 amended: `RawZone.from_json` fills each of the four
status-specific fields from the status sub-object via
`status.get(..., None)` independent of the status tag: whatever tag the
status carries, each field is exactly the value present in the status
sub-object under that key, and `None` only when the key is absent. -/
theorem c1_zone_status_amended (xv yv wv hv iv tv : JsonVal) (st : JsonObj)
    (h : jget st "type" = some tv) :
    RawZone.from_json
      [("x", xv), ("y", yv), ("width", wv), ("height", hv), ("index", iv),
       ("status", .obj st)] =
    .ok ⟨xv, yv, wv, hv, iv, tv,
         optField st "player_id", optField st "captured_by_id",
         optField st "retaken_by_id", optField st "remaining_ticks"⟩ := by
  have step : RawZone.from_json
      [("x", xv), ("y", yv), ("width", wv), ("height", hv), ("index", iv),
       ("status", .obj st)] =
      Except.bind (dictIndex st "type") (fun t =>
        Except.ok ⟨xv, yv, wv, hv, iv, t,
          optField st "player_id", optField st "captured_by_id",
          optField st "retaken_by_id", optField st "remaining_ticks"⟩) := rfl
  rw [step]
  unfold dictIndex
  rw [h]
  rfl

/-- C1 witness: the amended statement applied to a `neutral` status
carrying no extra keys: every status-specific field decodes to `None`. -/
theorem c1_zone_status_amended_witness :
    RawZone.from_json
      [("x", .int 0), ("y", .int 0), ("width", .int 1), ("height", .int 1),
       ("index", .int 0), ("status", .obj [("type", .str "neutral")])] =
    .ok ⟨.int 0, .int 0, .int 1, .int 1, .int 0, .str "neutral",
         .null, .null, .null, .null⟩ :=
  c1_zone_status_amended (.int 0) (.int 0) (.int 1) (.int 1) (.int 0)
    (.str "neutral") [("type", .str "neutral")] rfl

/-- C2: for a decoded game-state snapshot, the modelled Domain Model
Builder fails with `DanglingReference` exactly when some tank occupant
of the map has an owner id equal to no player id of the snapshot, and
passes the referential check when every tank owner id matches some
player. -/
theorem c2_dangling_reference (j : JsonObj) (gs : GameStatePayload)
    (_hdec : GameStatePayload.from_json j = .ok gs) :
    ((∃ t ∈ gs.map.tanks, ∀ p ∈ gs.players, (t.owner_id == p.id) = false) →
        buildCheckReferences gs = .error .danglingReference)
    ∧ ((∀ t ∈ gs.map.tanks, ∃ p ∈ gs.players, (t.owner_id == p.id) = true) →
        buildCheckReferences gs = .ok ()) := by
  have hpt : ∀ t : RawTank,
      ((gs.players.map (fun p => p.id)).contains t.owner_id = true) ↔
        (∃ p ∈ gs.players, (t.owner_id == p.id) = true) := by
    intro t
    simp [List.contains_eq_any_beq]
  constructor
  · rintro ⟨t, ht, hnone⟩
    unfold buildCheckReferences
    rw [if_neg]
    intro hcontra
    rw [List.all_eq_true] at hcontra
    obtain ⟨p, hp, hb⟩ := (hpt t).mp (hcontra t ht)
    rw [hnone p hp] at hb
    exact Bool.false_ne_true hb
  · intro hall
    unfold buildCheckReferences
    rw [if_pos]
    rw [List.all_eq_true]
    intro t ht
    exact (hpt t).mpr (hall t ht)

/-- C2 witness: a one-tile snapshot with player `p1` and a tank owned
by `p1` passes the referential check. -/
theorem c2_dangling_reference_witness :
    buildCheckReferences
      ⟨.str "g", .int 1,
       [⟨.str "p1", .str "n", .int 0, .null, .null, .null⟩],
       ⟨[[[⟨"tank", some (.tank ⟨.str "p1", .int 0, ⟨.int 0, .null, .null⟩, .null⟩)⟩]]],
        [], []⟩⟩ = .ok () :=
  (c2_dangling_reference
    [("id", .str "g"), ("tick", .int 1),
     ("players", .arr [.obj [("id", .str "p1"), ("nickname", .str "n"), ("color", .int 0)]]),
     ("map", .obj [("tiles", .arr [.arr [.arr [.obj [("type", .str "tank"),
        ("payload", .obj [("owner_id", .str "p1"), ("direction", .int 0),
                          ("turret", .obj [("direction", .int 0)])])]]]]),
        ("zones", .arr []), ("visibility", .arr [])])]
    ⟨.str "g", .int 1,
     [⟨.str "p1", .str "n", .int 0, .null, .null, .null⟩],
     ⟨[[[⟨"tank", some (.tank ⟨.str "p1", .int 0, ⟨.int 0, .null, .null⟩, .null⟩)⟩]]],
      [], []⟩⟩ rfl).2
    (by
      intro t ht
      refine ⟨⟨.str "p1", .str "n", .int 0, .null, .null, .null⟩, by simp, ?_⟩
      have : t = ⟨.str "p1", .int 0, ⟨.int 0, .null, .null⟩, .null⟩ := by
        simpa [RawMap.tanks, RawTileObject.tank?] using ht
      rw [this]
      rfl)

/-- C3 counterexample: a rotation request with both rotation fields
absent is accepted and yields a payload envelope; no
`InvalidCombination` rejection occurs, because the frozen dataclass
`TankRotationPayload` only binds its fields. -/
theorem c3_rotation_counterexample :
    encodeRotation "gs1" none none = .ok ⟨"gs1", none, none⟩
    ∧ encodeRotation "gs1" none none ≠ .error .invalidCombination := by
  exact ⟨rfl, by simp [encodeRotation]⟩

/-- C3 amended: every rotation request is accepted: the payload layer
performs no combination validation, so the envelope always carries
exactly the requested game-state id and the two optional rotations,
including the case where both are absent. -/
theorem c3_rotation_amended (gid : String) (tr tur : Option Int) :
    encodeRotation gid tr tur = .ok ⟨gid, tr, tur⟩ := rfl

/-- C4 counterexample: the tag `tile_entity` lies outside
`{wall, bullet, tank}`, yet decoding succeeds: the tag pascalizes to
the abstract base class `RawTileEntity`, which passes the
`issubclass` test, and its abstract `from_json` returns `None`, so the
occupant decodes with no entity instead of failing. -/
theorem c4_unknown_tag_counterexample :
    RawTileObject.from_json [("type", .str "tile_entity"), ("payload", .obj [])] =
      .ok ⟨"tile_entity", none⟩ := rfl

/-- C4 amended: decoding an occupant fails with the `ValueError` naming
the pascalized class exactly when `Raw{pascalize(tag)}` resolves to no
`RawTileEntity` subclass among the module globals; in particular the
tag `drone` fails with `UnknownVariant` naming `RawDrone`, while the
tag `tile_entity` — although outside `{wall, bullet, tank}` — resolves
to the abstract base and decodes to an occupant with no entity. -/
theorem c4_unknown_tag_amended :
    (∀ (t : String) (p : JsonObj),
        tileEntityRegistry ("Raw" ++ pascalize t) = none →
        RawTileObject.from_json [("type", .str t), ("payload", .obj p)] =
          .error (.valueError ("Unknown tile object class: " ++ ("Raw" ++ pascalize t))))
    ∧ RawTileObject.from_json [("type", .str "drone"), ("payload", .obj [])] =
        .error (.valueError "Unknown tile object class: RawDrone")
    ∧ RawTileObject.from_json [("type", .str "tile_entity"), ("payload", .obj [])] =
        .ok ⟨"tile_entity", none⟩ := by
  refine ⟨?_, rfl, rfl⟩
  intro t p h
  have step : RawTileObject.from_json [("type", .str t), ("payload", .obj p)] =
      (match tileEntityRegistry ("Raw" ++ pascalize t) with
       | none => .error (.valueError ("Unknown tile object class: " ++ ("Raw" ++ pascalize t)))
       | some dec => Except.bind (dec (.obj p)) (fun entity => Except.ok ⟨t, entity⟩)) := rfl
  rw [step, h]

/-- C4 witness: the amended statement applied to the tag `drone`. -/
theorem c4_unknown_tag_amended_witness :
    RawTileObject.from_json [("type", .str "drone"), ("payload", .obj [("x", .int 1)])] =
      .error (.valueError "Unknown tile object class: RawDrone") :=
  c4_unknown_tag_amended.1 "drone" [("x", .int 1)] rfl

theorem checkNoExtra_ok_means (j : JsonObj) (allowed : List String)
    (h : checkNoExtra j allowed = .ok ()) : ∀ p ∈ j, p.1 ∈ allowed := by
  intro p hp
  unfold checkNoExtra at h
  cases hf : j.find? (fun q => !(allowed.contains q.1)) with
  | some q =>
    rw [hf] at h
    exact absurd h (by simp)
  | none =>
    have hq := List.find?_eq_none.mp hf p hp
    simpa using hq

/-- C5 counterexample: an input holding all required `RawPlayer` fields
plus one extra key fails decoding with a `TypeError` (unexpected
keyword argument), while the same input without the extra key decodes;
extra fields are rejected, not ignored. -/
theorem c5_extra_keys_counterexample :
    RawPlayer.from_json
      [("id", .str "a"), ("nickname", .str "b"), ("color", .int 1), ("extra", .int 5)] =
      .error (.typeError "unexpected keyword argument extra")
    ∧ RawPlayer.from_json [("id", .str "a"), ("nickname", .str "b"), ("color", .int 1)] =
      .ok ⟨.str "a", .str "b", .int 1, .null, .null, .null⟩ := ⟨rfl, rfl⟩

/-- C5 amended: unknown extra fields are not ignored: `cls(**json_data)`
accepts only declared field names, so a successful decode implies every
input key belongs to the field set of the record (shown for `RawPlayer`
and `RawBullet`), and an input with an extra key fails with a
`TypeError`. -/
theorem c5_extra_keys_amended :
    (∀ (j : JsonObj) (r : RawPlayer), RawPlayer.from_json j = .ok r →
        ∀ p ∈ j, p.1 ∈ RawPlayer.fieldNames)
    ∧ (∀ (j : JsonObj) (b : RawBullet), RawBullet.from_json j = .ok b →
        ∀ p ∈ j, p.1 ∈ RawBullet.fieldNames) := by
  constructor
  · intro j r h p hp
    cases hc : checkNoExtra j RawPlayer.fieldNames with
    | error e =>
      unfold RawPlayer.from_json at h
      rw [hc] at h
      simp only [Bind.bind, Except.bind] at h
      exact absurd h (by simp)
    | ok u =>
      cases u
      exact checkNoExtra_ok_means j RawPlayer.fieldNames hc p hp
  · intro j b h p hp
    cases hc : checkNoExtra j RawBullet.fieldNames with
    | error e =>
      unfold RawBullet.from_json at h
      rw [hc] at h
      simp only [Bind.bind, Except.bind] at h
      exact absurd h (by simp)
    | ok u =>
      cases u
      exact checkNoExtra_ok_means j RawBullet.fieldNames hc p hp

/-- C5 witness: the amended statement applied to a legal three-field
player input: the key `id` of that input is a declared field. -/
theorem c5_extra_keys_amended_witness :
    ("id", JsonVal.str "a").1 ∈ RawPlayer.fieldNames :=
  c5_extra_keys_amended.1
    [("id", .str "a"), ("nickname", .str "b"), ("color", .int 1)]
    ⟨.str "a", .str "b", .int 1, .null, .null, .null⟩ rfl
    ("id", .str "a") (by simp)

theorem tileObject_from_json_eq (j : JsonObj) (t : String)
    (h1 : jget j "type" = some (.str t)) :
    RawTileObject.from_json j =
      (match tileEntityRegistry ("Raw" ++ pascalize t) with
       | none => .error (.valueError ("Unknown tile object class: " ++ ("Raw" ++ pascalize t)))
       | some dec =>
          Except.bind (dec ((jget (jerase j "type") "payload").getD (.obj [])))
            (fun entity => Except.ok ⟨t, entity⟩)) := by
  unfold RawTileObject.from_json dictIndex
  rw [h1]
  rfl

/-- C6: the occupant dispatch resolves each snake_case tag by
Pascal-casing with the `Raw` prefix, and runs exactly the decoder of
the corresponding class on the payload sub-object: `wall` runs
`RawWall.from_json`, `bullet` runs `RawBullet.from_json`, `tank` runs
`RawTank.from_json`; and a tank decode resolves its nested turret
sub-record through `RawTurret.from_json` before the tank record is
constructed, so the decoded turret field is exactly that result. -/
theorem c6_tag_dispatch :
    ("Raw" ++ pascalize "wall" = "RawWall"
      ∧ "Raw" ++ pascalize "bullet" = "RawBullet"
      ∧ "Raw" ++ pascalize "tank" = "RawTank")
    ∧ (∀ p : JsonObj,
        RawTileObject.from_json [("type", .str "wall"), ("payload", .obj p)] =
          (RawWall.from_json p).map (fun w => ⟨"wall", some (.wall w)⟩))
    ∧ (∀ p : JsonObj,
        RawTileObject.from_json [("type", .str "bullet"), ("payload", .obj p)] =
          (RawBullet.from_json p).map (fun b => ⟨"bullet", some (.bullet b)⟩))
    ∧ (∀ p : JsonObj,
        RawTileObject.from_json [("type", .str "tank"), ("payload", .obj p)] =
          (RawTank.from_json p).map (fun t => ⟨"tank", some (.tank t)⟩))
    ∧ (∀ (ov dv : JsonVal) (tj : JsonObj) (t : RawTank),
        RawTank.from_json [("owner_id", ov), ("direction", dv), ("turret", .obj tj)] =
          .ok t →
        RawTurret.from_json tj = .ok t.turret) := by
  refine ⟨⟨rfl, rfl, rfl⟩, ?_, ?_, ?_, ?_⟩
  · intro p
    have step : RawTileObject.from_json [("type", .str "wall"), ("payload", .obj p)] =
        Except.bind (Except.bind (RawWall.from_json p)
          (fun w => Except.ok (some (RawTileEntity.wall w))))
          (fun entity => Except.ok ⟨"wall", entity⟩) := rfl
    rw [step]
    cases hw : RawWall.from_json p with
    | error e => rfl
    | ok w => rfl
  · intro p
    have step : RawTileObject.from_json [("type", .str "bullet"), ("payload", .obj p)] =
        Except.bind (Except.bind (RawBullet.from_json p)
          (fun b => Except.ok (some (RawTileEntity.bullet b))))
          (fun entity => Except.ok ⟨"bullet", entity⟩) := rfl
    rw [step]
    cases hb : RawBullet.from_json p with
    | error e => rfl
    | ok b => rfl
  · intro p
    have step : RawTileObject.from_json [("type", .str "tank"), ("payload", .obj p)] =
        Except.bind (Except.bind (RawTank.from_json p)
          (fun t => Except.ok (some (RawTileEntity.tank t))))
          (fun entity => Except.ok ⟨"tank", entity⟩) := rfl
    rw [step]
    cases ht : RawTank.from_json p with
    | error e => rfl
    | ok t => rfl
  · intro ov dv tj t h
    have step : RawTank.from_json [("owner_id", ov), ("direction", dv), ("turret", .obj tj)] =
        Except.bind (RawTurret.from_json tj)
          (fun turret => Except.ok ⟨ov, dv, turret, .null⟩) := rfl
    rw [step] at h
    cases hturret : RawTurret.from_json tj with
    | error e =>
      rw [hturret] at h
      exact absurd h (by simp [Except.bind])
    | ok turret =>
      rw [hturret] at h
      simp only [Except.bind] at h
      cases h
      rfl

/-- C6 witness: the nested-turret statement applied to a concrete tank
payload: the decoded turret of the tank equals the `RawTurret` decode
of its turret sub-object. -/
theorem c6_tag_dispatch_witness :
    RawTurret.from_json [("direction", .int 1)] =
      .ok (RawTank.mk (.str "o") (.int 0) ⟨.int 1, .null, .null⟩ .null).turret :=
  c6_tag_dispatch.2.2.2.2 (.str "o") (.int 0) [("direction", .int 1)]
    ⟨.str "o", .int 0, ⟨.int 1, .null, .null⟩, .null⟩ rfl

/-- C7: the agent-tank discriminant implies the tank discriminant: the
member set a `runtime_checkable` `AgentTank` check requires (both
markers plus its properties) contains every member the `PlayerTank`
check requires, so any object passing the `AgentTank` instance check
passes the `PlayerTank` one; the converse fails, witnessed by an object
carrying exactly the `PlayerTank` members, so the two queries are
independently answerable. -/
theorem c7_agenttank_implies_playertank :
    (∀ attrs : List String,
        isAgentTankInstance attrs = true → isPlayerTankInstance attrs = true)
    ∧ (∃ attrs : List String,
        isPlayerTankInstance attrs = true ∧ isAgentTankInstance attrs = false) := by
  constructor
  · intro attrs h
    simp only [isAgentTankInstance, isPlayerTankInstance, satisfiesProtocol,
      AgentTank.members, PlayerTank.members, List.all_cons, List.all_nil,
      Bool.and_eq_true, and_true] at h ⊢
    exact ⟨h.1, h.2.2.1, h.2.2.2.1, h.2.2.2.2.1⟩
  · exact ⟨["__instancecheck_tank__", "owner_id", "direction", "turret"],
      by decide, by decide⟩

/-- C7 witness: an object carrying exactly the `AgentTank` member set
passes the `PlayerTank` instance check. -/
theorem c7_agenttank_implies_playertank_witness :
    isPlayerTankInstance ["__instancecheck_tank__", "__instancecheck_agenttank__",
      "owner_id", "direction", "turret", "health"] = true :=
  c7_agenttank_implies_playertank.1
    ["__instancecheck_tank__", "__instancecheck_agenttank__",
     "owner_id", "direction", "turret", "health"] (by decide)

/-- C8: optional fields missing from the input decode to `None`, never
a sentinel: a player input carrying only id, nickname and color decodes
with score, ping and ticks_to_regen all `None`, and a turret input
carrying only direction decodes with bullet_count and
ticks_to_regen_bullet both `None`, whatever the required values are. -/
theorem c8_missing_optional_is_none :
    (∀ iv nv cv : JsonVal,
        RawPlayer.from_json [("id", iv), ("nickname", nv), ("color", cv)] =
          .ok ⟨iv, nv, cv, .null, .null, .null⟩)
    ∧ (∀ dv : JsonVal,
        RawTurret.from_json [("direction", dv)] = .ok ⟨dv, .null, .null⟩) :=
  ⟨fun _ _ _ => rfl, fun _ => rfl⟩

/-- C9: every dataclass declared in `payloads.py` is declared frozen,
so every record the decoders produce is immutable: assignment to a
field of a constructed instance raises `FrozenInstanceError`, and a
later snapshot can only build new records. -/
theorem c9_records_frozen :
    ∀ d ∈ payloadsDataclasses, d.frozen = true ∧
      ∀ attr : String, setattrOnInstance d attr =
        .error (.frozenInstanceError d.name) := by
  intro d hd
  have hf : d.frozen = true := by
    have hall : payloadsDataclasses.all (fun x => x.frozen) = true := by decide
    exact List.all_eq_true.mp hall d hd
  refine ⟨hf, fun attr => ?_⟩
  simp [setattrOnInstance, hf]

/-- C9 witness: assigning to a field of a constructed `ServerSettings`
raises `FrozenInstanceError`. -/
theorem c9_records_frozen_witness :
    setattrOnInstance ⟨"ServerSettings", true, true⟩ "seed" =
      .error (.frozenInstanceError "ServerSettings") :=
  (c9_records_frozen ⟨"ServerSettings", true, true⟩ (by decide)).2 "seed"

/-- C10: a `wall` occupant with no `payload` key decodes successfully —
`json_data.get("payload", {})` substitutes an empty record and `RawWall`
has no required fields — while occupant kinds with required fields fail
on a missing payload: `bullet` with a missing required id, `tank` with
a `KeyError` on the turret. -/
theorem c10_missing_payload :
    (∀ j : JsonObj, jget j "type" = some (.str "wall") →
        jget j "payload" = none →
        RawTileObject.from_json j = .ok ⟨"wall", some (.wall ⟨⟩)⟩)
    ∧ (∀ j : JsonObj, jget j "type" = some (.str "bullet") →
        jget j "payload" = none →
        RawTileObject.from_json j =
          .error (.typeError "missing required argument id"))
    ∧ (∀ j : JsonObj, jget j "type" = some (.str "tank") →
        jget j "payload" = none →
        RawTileObject.from_json j = .error (.keyError "turret")) := by
  refine ⟨?_, ?_, ?_⟩ <;> intro j h1 h2 <;>
    rw [tileObject_from_json_eq j _ h1] <;>
    have hpay : jget (jerase j "type") "payload" = none := by
      rw [jget_jerase_ne j "payload" "type" rfl]
      exact h2
  · simp only [hpay]
    rfl
  · simp only [hpay]
    rfl
  · simp only [hpay]
    rfl

/-- C10 witness: the wall statement applied to an occupant object with
only the `type` key. -/
theorem c10_missing_payload_witness :
    RawTileObject.from_json [("type", .str "wall")] =
      .ok ⟨"wall", some (.wall ⟨⟩)⟩ :=
  c10_missing_payload.1 [("type", .str "wall")] rfl rfl
